import Mathlib

/-!
# Verification of the cncjs numpad pendant core

A shallow embedding of the jog/probe/connection core of the
`cncjs-pendant-numpad` program, together with proofs about it.

Embedding conventions:
* JavaScript `number` values are modelled by `JsNum` (finite values are exact
  rationals; `NaN` and the two infinities are explicit constructors).  Where a
  quantity is known to be finite we use `ℚ` directly.
* Strings coming over the serial port are modelled as `List Char`.
* The `setTimeout`/`setInterval` machinery is modelled by storing the pending
  delay (for the single jog timeout) resp. the list of live interval timers
  (for the serial-open retry intervals) in the component state.
* Side effects (commands handed to the socket) are returned as explicit output
  lists.
-/

namespace Pendant

/-! ## JavaScript numbers (`Number` semantics, exact rationals for finite values) -/

/-- A JavaScript `number`, with finite values represented exactly as rationals.
`nan` models `NaN`, `posInf`/`negInf` model the infinities. -/
inductive JsNum where
  | nan : JsNum
  | posInf : JsNum
  | negInf : JsNum
  | num (q : ℚ) : JsNum
deriving DecidableEq, Repr

/-- JavaScript subtraction on numbers: `NaN` is absorbing, `∞ − ∞ = NaN`. -/
def JsNum.sub : JsNum → JsNum → JsNum
  | .nan, _ => .nan
  | _, .nan => .nan
  | .posInf, .posInf => .nan
  | .posInf, .negInf => .posInf
  | .posInf, .num _ => .posInf
  | .negInf, .negInf => .nan
  | .negInf, .posInf => .negInf
  | .negInf, .num _ => .negInf
  | .num _, .posInf => .negInf
  | .num _, .negInf => .posInf
  | .num a, .num b => .num (a - b)

def isDigitChar (c : Char) : Bool := '0' ≤ c && c ≤ '9'

def digitVal (c : Char) : Nat := c.toNat - '0'.toNat

def natOfDigits (l : List Char) : Nat := l.foldl (fun a c => a * 10 + digitVal c) 0

def isHexDigitChar (c : Char) : Bool :=
  isDigitChar c || ('a' ≤ c && c ≤ 'f') || ('A' ≤ c && c ≤ 'F')

def hexVal (c : Char) : Nat :=
  if isDigitChar c then digitVal c
  else if 'a' ≤ c && c ≤ 'f' then c.toNat - 'a'.toNat + 10
  else c.toNat - 'A'.toNat + 10

def natOfHexDigits (l : List Char) : Nat := l.foldl (fun a c => a * 16 + hexVal c) 0

def isOctDigitChar (c : Char) : Bool := '0' ≤ c && c ≤ '7'

def natOfOctDigits (l : List Char) : Nat := l.foldl (fun a c => a * 8 + digitVal c) 0

def isBinDigitChar (c : Char) : Bool := c = '0' || c = '1'

def natOfBinDigits (l : List Char) : Nat := l.foldl (fun a c => a * 2 + digitVal c) 0

/-- The white-space characters stripped by JavaScript's `Number()` conversion
(`StrWhiteSpaceChar`: tab, line terminators, space-category characters, BOM). -/
def jsWhitespaceChar (c : Char) : Bool :=
  c = ' ' || c = '\t' || c = '\n' || c = '\r' ||
  c = Char.ofNat 0x0B || c = Char.ofNat 0x0C ||
  c = Char.ofNat 0xA0 || c = Char.ofNat 0x1680 ||
  (Char.ofNat 0x2000 ≤ c && c ≤ Char.ofNat 0x200A) ||
  c = Char.ofNat 0x2028 || c = Char.ofNat 0x2029 ||
  c = Char.ofNat 0x202F || c = Char.ofNat 0x205F ||
  c = Char.ofNat 0x3000 || c = Char.ofNat 0xFEFF

def trimJsWhitespace (l : List Char) : List Char :=
  ((l.dropWhile jsWhitespaceChar).reverse.dropWhile jsWhitespaceChar).reverse

/-- The syntactic analysis of a string by JavaScript's `Number()`
conversion, kept free of rational arithmetic so that it is
kernel-computable: either no numeric literal (`nan`), a signed `Infinity`, a
signed decimal literal (integer digits, fraction digits with their count,
exponent), or an unsigned radix (hex/octal/binary) literal. -/
inductive NumParse where
  | nan : NumParse
  | inf (neg : Bool) : NumParse
  | dec (neg : Bool) (ip fp fpLen : Nat) (ex : Int) : NumParse
  | intLit (n : Nat) : NumParse
deriving DecidableEq, Repr

/-- Parse the exponent tail of a decimal literal (the part after `e`/`E`). -/
def parseExponent (t : List Char) : Option Int :=
  match t with
  | '+' :: d => if d ≠ [] && d.all isDigitChar then some (natOfDigits d) else none
  | '-' :: d => if d ≠ [] && d.all isDigitChar then some (-(natOfDigits d : Int)) else none
  | d => if d ≠ [] && d.all isDigitChar then some (natOfDigits d) else none

/-- Parse a decimal mantissa (`digits`, `digits.digits?`, or `.digits`) into
integer digits, fraction digits, and the fraction length. -/
def parseMantissa (m : List Char) : Option (Nat × Nat × Nat) :=
  let ip := m.takeWhile isDigitChar
  let rest := m.dropWhile isDigitChar
  match rest with
  | [] => if ip = [] then none else some (natOfDigits ip, 0, 0)
  | '.' :: fp =>
    if fp.all isDigitChar && (ip ≠ [] || fp ≠ []) then
      some (natOfDigits ip, natOfDigits fp, fp.length)
    else none
  | _ => none

/-- Parse an unsigned decimal numeric literal (mantissa with optional
`e`/`E` exponent), as accepted by JavaScript's `Number()`. -/
def parseUnsignedDec (l : List Char) : Option (Nat × Nat × Nat × Int) :=
  let mant := l.takeWhile (fun c => c ≠ 'e' && c ≠ 'E')
  let rest := l.dropWhile (fun c => c ≠ 'e' && c ≠ 'E')
  match rest with
  | [] =>
    match parseMantissa mant with
    | some (ip, fp, k) => some (ip, fp, k, 0)
    | none => none
  | _ :: t =>
    match parseMantissa mant, parseExponent t with
    | some (ip, fp, k), some e => some (ip, fp, k, e)
    | _, _ => none

/-- The parsing stage of JavaScript's `Number(string)`: trims white space,
accepts the empty string as `0`, signed decimal literals, `Infinity`, and
unsigned hexadecimal / octal / binary literals; everything else is `NaN`. -/
def jsParse (l : List Char) : NumParse :=
  let t := trimJsWhitespace l
  match t with
  | [] => .dec false 0 0 0 0
  | '0' :: 'x' :: r =>
    if r ≠ [] && r.all isHexDigitChar then .intLit (natOfHexDigits r) else .nan
  | '0' :: 'X' :: r =>
    if r ≠ [] && r.all isHexDigitChar then .intLit (natOfHexDigits r) else .nan
  | '0' :: 'o' :: r =>
    if r ≠ [] && r.all isOctDigitChar then .intLit (natOfOctDigits r) else .nan
  | '0' :: 'O' :: r =>
    if r ≠ [] && r.all isOctDigitChar then .intLit (natOfOctDigits r) else .nan
  | '0' :: 'b' :: r =>
    if r ≠ [] && r.all isBinDigitChar then .intLit (natOfBinDigits r) else .nan
  | '0' :: 'B' :: r =>
    if r ≠ [] && r.all isBinDigitChar then .intLit (natOfBinDigits r) else .nan
  | _ =>
    let neg : Bool := match t with | '-' :: _ => true | _ => false
    let body := match t with
      | '+' :: r => r
      | '-' :: r => r
      | r => r
    if body = ['I', 'n', 'f', 'i', 'n', 'i', 't', 'y'] then .inf neg
    else
      match parseUnsignedDec body with
      | some (ip, fp, k, e) => .dec neg ip fp k e
      | none => .nan

/-- The rational value of a signed decimal literal. -/
def decValue (neg : Bool) (ip fp fpLen : Nat) (ex : Int) : ℚ :=
  (if neg then -1 else 1) * ((ip : ℚ) + (fp : ℚ) / 10 ^ fpLen) * 10 ^ ex

/-- JavaScript's `Number(string)` conversion. -/
def jsNumber (l : List Char) : JsNum :=
  match jsParse l with
  | .nan => .nan
  | .inf false => .posInf
  | .inf true => .negInf
  | .dec neg ip fp k e => .num (decValue neg ip fp k e)
  | .intLit n => .num n

lemma jsNumber_of_parse_nan {l : List Char} (h : jsParse l = .nan) : jsNumber l = .nan := by
  simp [jsNumber, h]

lemma jsNumber_of_parse_dec {l : List Char} {neg : Bool} {ip fp k : Nat} {e : Int}
    (h : jsParse l = .dec neg ip fp k e) : jsNumber l = .num (decValue neg ip fp k e) := by
  simp [jsNumber, h]

/-- `Number(values[i])` where `values[i]` may be `undefined`
(`Number(undefined)` is `NaN`). -/
def jsNumberAt (vals : List (List Char)) (i : Nat) : JsNum :=
  match vals.get? i with
  | some v => jsNumber v
  | none => .nan

/-! ## `ZProbeRecord` (`gcode-grbl.ts`) -/

/-- A character matched by `.` in a JavaScript regular expression without the
`s` flag: anything except a line terminator. -/
def charDot (c : Char) : Bool :=
  c ≠ '\n' && c ≠ '\r' && c ≠ Char.ofNat 0x2028 && c ≠ Char.ofNat 0x2029

/-- `ZProbeRecord` from `gcode-grbl.ts`: the fields `x`, `y`, `z` are
JavaScript numbers (they can be `NaN`), `success` a boolean. -/
structure ZProbeRecord where
  x : JsNum
  y : JsNum
  z : JsNum
  success : Bool
deriving DecidableEq, Repr

/-- The `ZProbeRecord` constructor: `x = y = z = 0`, `success = false`. -/
def ZProbeRecord.init : ZProbeRecord := ⟨.num 0, .num 0, .num 0, false⟩

/-- `ZProbeRecord.isValidString`: whether the line matches
`/^\[PRB:.*:\d\]$/`, i.e. has the exact shape
`"[PRB:" ++ mid ++ ":" ++ [d] ++ "]"` with `d` a digit and `mid` free of line
terminators. -/
def ZProbeRecord.isValidString (data : List Char) : Bool :=
  match data with
  | '[' :: 'P' :: 'R' :: 'B' :: ':' :: rest =>
    match rest.reverse with
    | ']' :: d :: ':' :: midRev => isDigitChar d && midRev.all charDot
    | _ => false
  | _ => false

/-- The text strictly before the last `':'` of a list, if it has one. -/
def beforeLastColon : List Char → Option (List Char)
  | [] => none
  | c :: rest =>
    match beforeLastColon rest with
    | some t => some (c :: t)
    | none => if c = ':' then some [] else none

/-- The capture group of `data.match(/:(.*):/)` (first match, greedy):
starting from the leftmost `':'`, the `.*` may span any run of
non-line-terminator characters, and greediness closes the match at the last
`':'` inside that run.  Returns `none` when the regex does not match. -/
def captureColons : List Char → Option (List Char)
  | [] => none
  | c :: rest =>
    if c = ':' then
      match beforeLastColon (rest.takeWhile charDot) with
      | some mid => some mid
      | none => captureColons rest
    else captureColons rest

/-- The capture group of `data.match(/.*:(\d)/)` (greedy): the digit of the
last `':' <digit>` pair of the line.  (The `.*` cannot span line terminators;
the probe lines this is applied to contain none, so taking the last pair of
the whole list is faithful.) -/
def lastColonDigit : List Char → Option Char
  | [] => none
  | a :: rest =>
    match lastColonDigit rest with
    | some c => some c
    | none =>
      match rest with
      | b :: _ => if a = ':' && isDigitChar b then some b else none
      | [] => none

/-- `ZProbeRecord.updateFromString`: on an invalid line, return the record
unchanged; otherwise assign `x`, `y`, `z` from the comma-separated text
between the first and last colon (via `Number(...)`, so unparsable fields
become `NaN`), then assign `success = Boolean(Number(d))` from the digit of
the last `':'<digit>` pair. -/
def ZProbeRecord.updateFromString (rec : ZProbeRecord) (data : List Char) : ZProbeRecord :=
  if ZProbeRecord.isValidString data then
    let rec1 :=
      match captureColons data with
      | some mid =>
        let values := mid.splitOn ','
        { rec with
            x := jsNumberAt values 0
            y := jsNumberAt values 1
            z := jsNumberAt values 2 }
      | none => rec
    match lastColonDigit data with
    | some d => { rec1 with success := decide (d ≠ '0') }
    | none => rec1
  else rec

/-! ## Constants (`actions.ts`, `gcode-sender.ts`) -/

def SINGLESTEP_LARGE_JOGDISTANCE : ℚ := 10
def SINGLESTEP_MEDIUM_JOGDISTANCE : ℚ := 1
def SINGLESTEP_SMALL_JOGDISTANCE : ℚ := 1 / 10

/-- Period in ms at which the `$J` jogging commands are sent to the machine. -/
def SMOOTHJOG_COMMANDS_INTERVAL : ℚ := 150

/-- Smooth-jog speed constant, mm/minute. -/
def SMOOTHJOG_JOGSPEED : ℚ := 2000

/-- `SMOOTHJOG_JOGSPEED * (SMOOTHJOG_COMMANDS_INTERVAL / 60000)`:
mm/minute in terms of mm/interval. -/
def SMOOTHJOG_JOGSTEP : ℚ := SMOOTHJOG_JOGSPEED * (SMOOTHJOG_COMMANDS_INTERVAL / 60000)

def DEFAULT_MOVE_DISTANCE : ℚ := SINGLESTEP_MEDIUM_JOGDISTANCE

/-- `RETRACTION_DISTANCE` from `gcode-sender.ts` (mm). -/
def RETRACTION_DISTANCE : ℚ := 4

/-! ## G-code commands produced by the Grbl sender (`gcode-grbl.ts`) -/

/-- The g-code command strings the Grbl sender hands to
`sendMessage('command', 'gcode', …)`, with their numeric payloads kept
symbolic. -/
inductive Cmd where
  /-- `G21` (set millimeters). -/
  | g21 : Cmd
  /-- `G90` (absolute coordinates). -/
  | g90 : Cmd
  /-- `G91` (relative coordinates). -/
  | g91 : Cmd
  /-- `` `G10 L20 P1 Z${dz}` `` (state that the current Z is `dz`). -/
  | setZOffset (dz : JsNum) : Cmd
  /-- `` `G0 Z${d}` `` (the small retract move after probing). -/
  | g0Z (d : ℚ) : Cmd
  /-- `` `$J=X${x} Y${y} Z${z} F${f}` `` with `f` the rendered F-word value. -/
  | jogJ (x y z f : ℚ) : Cmd
deriving DecidableEq, Repr

def Cmd.isSetZOffset : Cmd → Bool
  | .setZOffset _ => true
  | _ => false

def Cmd.isG0Z : Cmd → Bool
  | .g0Z _ => true
  | _ => false

def Cmd.isJogJ : Cmd → Bool
  | .jogJ _ _ _ _ => true
  | _ => false

/-- The `serialport:read` subscription installed by the `GcodeGrbl`
constructor: on a valid probe line, update the record; if the updated record
reports success, emit `G91`, the `G10 L20 P1 Z${dz}` work-offset command with
`dz = z − Number(zProbeThickness)`, the `G0 Z${retractionDistance}` retract,
and `G90`.  Returns the new record and the emitted command list. -/
def grblHandleRead (zProbeThickness : List Char) (rec : ZProbeRecord) (data : List Char) :
    ZProbeRecord × List Cmd :=
  if ZProbeRecord.isValidString data then
    let rec' := rec.updateFromString data
    if rec'.success then
      (rec', [Cmd.g91,
              Cmd.setZOffset (rec'.z.sub (jsNumber zProbeThickness)),
              Cmd.g0Z RETRACTION_DISTANCE,
              Cmd.g90])
    else (rec', [])
  else (rec, [])

/-- `GcodeGrbl.moveGantryJogToXYZ`: `G21`, `G91`, the `$J=` jog line whose
F word is `mmPerMin * 0.98`, then `G90`. -/
def moveGantryJogToXYZ (x y z mmPerMin : ℚ) : List Cmd :=
  [Cmd.g21, Cmd.g91, Cmd.jogJ x y z (mmPerMin * (98 / 100)), Cmd.g90]

/-- The feedrate computed by `Actions.jogGantry`:
`(dist * 60000) / SMOOTHJOG_COMMANDS_INTERVAL` (mm/min), where `dist` is the
value of `Math.sqrt(x*x + y*y + z*z)`. -/
def jogSpeedOf (dist : ℚ) : ℚ := dist * 60000 / SMOOTHJOG_COMMANDS_INTERVAL

/-- `Actions.jogGantry`: compute the feedrate from the travel distance and
hand it to `moveGantryJogToXYZ`.  `dist` stands for
`Math.sqrt(x*x + y*y + z*z)`; theorems about `jogGantry` carry the side
condition `dist * dist = x*x + y*y + z*z ∧ 0 ≤ dist`. -/
def jogGantry (x y z dist : ℚ) : List Cmd :=
  moveGantryJogToXYZ x y z (jogSpeedOf dist)

/-! ## The `Actions` jog scheduler state (`actions.ts`) -/

/-- `XYZCoords` from `actions.ts`: the next jogging motion destination. -/
structure XYZCoords where
  move_x_axis : ℚ := 0
  move_y_axis : ℚ := 0
  move_z_axis : ℚ := 0
deriving DecidableEq, Repr

/-- The mutable state of an `Actions` instance.  `timerDelay` models the
pending `setTimeout` delay of `smoothJoggingTimer` in ms (`none` after a
`clearTimeout` with no re-arm). -/
structure ActionsState where
  moveDistance : ℚ
  previousKeyCode : Option Nat
  axisInstructions : XYZCoords
  smoothJogging : Bool
  timerDelay : Option ℚ
  joggingAck : Bool
deriving DecidableEq, Repr

/-- `Actions.restartSmoothJog`: clear the pending timeout, schedule
`jogFunction` after `SMOOTHJOG_COMMANDS_INTERVAL`, and set `smoothJogging`. -/
def restartSmoothJog (s : ActionsState) : ActionsState :=
  { s with smoothJogging := true, timerDelay := some SMOOTHJOG_COMMANDS_INTERVAL }

/-- The state built by the `Actions` constructor: default move distance,
`joggingAck = true`, then `restartSmoothJog()`. -/
def initActions : ActionsState :=
  restartSmoothJog
    { moveDistance := DEFAULT_MOVE_DISTANCE
      previousKeyCode := none
      axisInstructions := {}
      smoothJogging := false
      timerDelay := none
      joggingAck := true }

/-- Does an inbound `serialport:read` line acknowledge a jog?  Mirrors
`data.startsWith('ok') || data.startsWith('error:15')`. -/
def ackLine (data : List Char) : Bool :=
  data.take 2 = ['o', 'k'] || data.take 8 = ['e', 'r', 'r', 'o', 'r', ':', '1', '5']

/-- The `serialport:read` subscription installed by the `Actions`
constructor: when `joggingAck` is false and the line starts with `ok` or
`error:15`, set `joggingAck` to true. -/
def actionsOnSerialRead (s : ActionsState) (data : List Char) : ActionsState :=
  if !s.joggingAck && ackLine data then { s with joggingAck := true } else s

/-- `Actions.stopSmoothJog`: clear the jog flag and the pending timeout and
emit the Grbl jog-cancel byte `0x85` directly on the socket
(`connector.socket.emit`, bypassing `sendMessage` and the ack gate).  The
second component is the list of raw bytes emitted. -/
def stopSmoothJog (s : ActionsState) : ActionsState × List Nat :=
  ({ s with smoothJogging := false, timerDelay := none }, [0x85])

/-- The one-shot commands `Actions.onUse` dispatches immediately through the
g-code sender (bypassing the jog tick path). -/
inductive OneShot where
  | moveGantryWCSHomeXY : OneShot
  | recordGantryZeroWCSX : OneShot
  | recordGantryZeroWCSY : OneShot
  | recordGantryZeroWCSZ : OneShot
  | controllerUnlock : OneShot
  | performZProbingTwice : OneShot
  | performHoming : OneShot
deriving DecidableEq, Repr

/-- `Actions.onUse` for a key event (with the source's hard-wired
`useJogging = true`): build the per-tick axis instructions, dispatch one-shot
commands, update `moveDistance` for the step-size keys, record the previous
key (except for key code 0), store the instructions, and restart the jog
timer.  Returns the new state and the dispatched one-shot commands. -/
def onUse (s : ActionsState) (key : Nat) : ActionsState × List OneShot :=
  let jogVelocity := SMOOTHJOG_JOGSPEED
  let jogDistance := SMOOTHJOG_JOGSTEP
  let jogVelocityZ := SMOOTHJOG_JOGSPEED * (1 / 4)
  let jogDistanceZ := SMOOTHJOG_JOGSTEP * (1 / 4)
  let r : XYZCoords × List OneShot × ℚ :=
    match key with
    | 86 => ({ move_z_axis := jogDistanceZ * jogVelocityZ }, [], s.moveDistance)       -- KP_MINUS
    | 87 => ({ move_z_axis := -(jogDistanceZ * jogVelocityZ) }, [], s.moveDistance)    -- KP_PLUS
    | 92 => ({ move_x_axis := -(jogDistance * jogVelocity) }, [], s.moveDistance)      -- KP_4
    | 94 => ({ move_x_axis := jogDistance * jogVelocity }, [], s.moveDistance)         -- KP_6
    | 96 => ({ move_y_axis := jogDistance * jogVelocity }, [], s.moveDistance)         -- KP_8
    | 90 => ({ move_y_axis := -(jogDistance * jogVelocity) }, [], s.moveDistance)      -- KP_2
    | 89 => ({ move_x_axis := -(jogDistance * jogVelocity),
               move_y_axis := -(jogDistance * jogVelocity) }, [], s.moveDistance)      -- KP_1
    | 97 => ({ move_x_axis := jogDistance * jogVelocity,
               move_y_axis := jogDistance * jogVelocity }, [], s.moveDistance)         -- KP_9
    | 91 => ({ move_x_axis := jogDistance * jogVelocity,
               move_y_axis := -(jogDistance * jogVelocity) }, [], s.moveDistance)      -- KP_3
    | 95 => ({ move_x_axis := -(jogDistance * jogVelocity),
               move_y_axis := jogDistance * jogVelocity }, [], s.moveDistance)         -- KP_7
    | 93 => ({}, [OneShot.moveGantryWCSHomeXY], s.moveDistance)                        -- KP_5
    | 43 => ({}, [OneShot.recordGantryZeroWCSX, OneShot.recordGantryZeroWCSY,
                  OneShot.recordGantryZeroWCSZ], s.moveDistance)                       -- TAB
    | 98 => ({}, [OneShot.controllerUnlock], s.moveDistance)                           -- KP_0
    | 99 => ({}, [OneShot.performZProbingTwice], s.moveDistance)                       -- KP_PERIOD
    | 88 => ({}, [OneShot.performHoming], s.moveDistance)                              -- KP_ENTER
    | 83 => ({}, [OneShot.recordGantryZeroWCSX, OneShot.recordGantryZeroWCSY],
             s.moveDistance)                                                           -- NUMLOCKCLEAR
    | 84 => ({}, [], SINGLESTEP_SMALL_JOGDISTANCE)                                     -- KP_DIVIDE
    | 85 => ({}, [], SINGLESTEP_MEDIUM_JOGDISTANCE)                                    -- KP_MULTIPLY
    | 42 => ({}, [], SINGLESTEP_LARGE_JOGDISTANCE)                                     -- BACKSPACE
    | _ => ({}, [], s.moveDistance)                                  -- KEYCODE_UNKNOWN / default
  let s' := restartSmoothJog
    { s with
        moveDistance := r.2.2
        previousKeyCode := if key ≠ 0 then some key else s.previousKeyCode
        axisInstructions := r.1 }
  (s', r.2.1)

/-- `Actions.jogFunction` (one timer tick): re-arm the timer at
`SMOOTHJOG_COMMANDS_INTERVAL * (joggingAck ? 1 : 0.5)`, then — unless the
standing instructions are the zero vector — transmit a jog and clear
`joggingAck` provided `joggingAck` was set.  The second component carries the
`jogGantry(x, y, z)` call, if any. -/
def jogFunction (s : ActionsState) : ActionsState × Option (ℚ × ℚ × ℚ) :=
  let s1 := { s with
    timerDelay := some (SMOOTHJOG_COMMANDS_INTERVAL * (if s.joggingAck then 1 else 1 / 2)) }
  let ai := s.axisInstructions
  if ai.move_x_axis = 0 ∧ ai.move_y_axis = 0 ∧ ai.move_z_axis = 0 then (s1, none)
  else if s.joggingAck then
    ({ s1 with joggingAck := false },
     some (ai.move_x_axis, ai.move_y_axis, ai.move_z_axis))
  else (s1, none)

/-! ## Event-level semantics of the `Actions` scheduler -/

/-- The asynchronous events the `Actions` instance reacts to. -/
inductive AEvent where
  | key (k : Nat) : AEvent
  | read (line : List Char) : AEvent
  | tick : AEvent
  | stop : AEvent

/-- The outputs of one event step: the jog transmission (if any), the
dispatched one-shot commands, and raw bytes emitted directly on the socket. -/
structure StepOut where
  jog : Option (ℚ × ℚ × ℚ)
  oneShots : List OneShot
  raw : List Nat
deriving DecidableEq, Repr

/-- One event step of the `Actions` scheduler. -/
def stepA (s : ActionsState) : AEvent → ActionsState × StepOut
  | .key k => ((onUse s k).1, ⟨none, (onUse s k).2, []⟩)
  | .read l => (actionsOnSerialRead s l, ⟨none, [], []⟩)
  | .tick => ((jogFunction s).1, ⟨(jogFunction s).2, [], []⟩)
  | .stop => ((stopSmoothJog s).1, ⟨none, [], (stopSmoothJog s).2⟩)

/-- Run a list of events from a state. -/
def runA (s : ActionsState) : List AEvent → ActionsState
  | [] => s
  | e :: es => runA (stepA s e).1 es

/-! ## The serial-open retry logic of `Connector` (`connector.js`) -/

/-- The fixed serial-open retry period (`setInterval(…, 2000)`). -/
def SERIAL_RETRY_MS : ℚ := 2000

/-- A live `setInterval` timer: its identity and its period in ms. -/
structure RTimer where
  id : Nat
  periodMs : ℚ
deriving DecidableEq, Repr

/-- The `Connector` state relevant to serial-port opening: the readiness
flag, the stored `this.serial` interval reference, the set of interval
timers actually live in the runtime, and a fresh-id counter. -/
structure ConnectorState where
  serialConnected : Bool
  serialTimer : Option Nat
  liveTimers : List RTimer
  nextId : Nat
deriving DecidableEq, Repr

/-- The `Connector` state after the constructor. -/
def initConnector : ConnectorState :=
  { serialConnected := false, serialTimer := none, liveTimers := [], nextId := 0 }

/-- `Connector.openSerial` (non-simulate path): start a new
`setInterval(…, 2000)` that re-emits the `open` request, and store its
reference in `this.serial`.  The previously stored interval, if any, is not
cleared. -/
def openSerial (c : ConnectorState) : ConnectorState :=
  { c with
      serialTimer := some c.nextId
      liveTimers := ⟨c.nextId, SERIAL_RETRY_MS⟩ :: c.liveTimers
      nextId := c.nextId + 1 }

/-- The `serialport:open` handler: `clearInterval(this.serial)` (a no-op when
`this.serial` is unset; interval ids are allocated uniquely, so clearing
removes the one timer with that id) and set `serialConnected`. -/
def onSerialportOpen (c : ConnectorState) : ConnectorState :=
  { c with
      serialConnected := true
      liveTimers :=
        match c.serialTimer with
        | some t => c.liveTimers.filter (fun r => r.id ≠ t)
        | none => c.liveTimers }

/-- The `serialport:close` handler: clear `serialConnected` and call
`openSerial()` again. -/
def onSerialportClose (c : ConnectorState) : ConnectorState :=
  openSerial { c with serialConnected := false }

/-- The `serialport:error` handler: clear `serialConnected` and call
`openSerial()` again. -/
def onSerialportError (c : ConnectorState) : ConnectorState :=
  openSerial { c with serialConnected := false }

/-- Inbound events that drive the serial-open logic (`connect` triggers the
first `openSerial` call). -/
inductive CEvent where
  | connectEv : CEvent
  | spOpen : CEvent
  | spClose : CEvent
  | spError : CEvent

/-- One event step of the `Connector` serial-open logic. -/
def stepC (c : ConnectorState) : CEvent → ConnectorState
  | .connectEv => openSerial c
  | .spOpen => onSerialportOpen c
  | .spClose => onSerialportClose c
  | .spError => onSerialportError c

/-- Run a list of connector events from a state. -/
def runC (c : ConnectorState) : List CEvent → ConnectorState
  | [] => c
  | e :: es => runC (stepC c e) es

/-! ## Helper lemmas -/

/-- `onUse` never touches `joggingAck`. -/
lemma onUse_joggingAck (s : ActionsState) (k : Nat) :
    ((onUse s k).1).joggingAck = s.joggingAck := rfl

/-- `onUse` always re-arms the jog timer at the full interval. -/
lemma onUse_timerDelay (s : ActionsState) (k : Nat) :
    ((onUse s k).1).timerDelay = some SMOOTHJOG_COMMANDS_INTERVAL := rfl

lemma onUse_smoothJogging (s : ActionsState) (k : Nat) :
    ((onUse s k).1).smoothJogging = true := rfl

/-- A tick transmits exactly when the ack flag is set and the standing
instructions are non-zero. -/
lemma jogFunction_isSome_iff (s : ActionsState) :
    ((jogFunction s).2).isSome = true ↔
      (s.joggingAck = true ∧
        ¬(s.axisInstructions.move_x_axis = 0 ∧ s.axisInstructions.move_y_axis = 0 ∧
          s.axisInstructions.move_z_axis = 0)) := by
  by_cases hz : s.axisInstructions.move_x_axis = 0 ∧ s.axisInstructions.move_y_axis = 0 ∧
      s.axisInstructions.move_z_axis = 0 <;>
    by_cases ha : s.joggingAck = true <;>
      simp [jogFunction, hz, ha]

/-- A tick that transmits clears the ack flag. -/
lemma jogFunction_transmit_ack (s : ActionsState) (h : ((jogFunction s).2).isSome = true) :
    ((jogFunction s).1).joggingAck = false := by
  by_cases hz : s.axisInstructions.move_x_axis = 0 ∧ s.axisInstructions.move_y_axis = 0 ∧
      s.axisInstructions.move_z_axis = 0 <;>
    by_cases ha : s.joggingAck = true <;>
      simp [jogFunction, hz, ha] at h ⊢

/-- A tick preserves a cleared ack flag (and transmits nothing). -/
lemma jogFunction_ack_false (s : ActionsState) (h : s.joggingAck = false) :
    (jogFunction s).2 = none ∧ ((jogFunction s).1).joggingAck = false := by
  by_cases hz : s.axisInstructions.move_x_axis = 0 ∧ s.axisInstructions.move_y_axis = 0 ∧
      s.axisInstructions.move_z_axis = 0 <;>
    simp [jogFunction, hz, h]

lemma jogFunction_timerDelay (s : ActionsState) :
    ((jogFunction s).1).timerDelay =
      some (SMOOTHJOG_COMMANDS_INTERVAL * (if s.joggingAck then 1 else 1 / 2)) := by
  by_cases hz : s.axisInstructions.move_x_axis = 0 ∧ s.axisInstructions.move_y_axis = 0 ∧
      s.axisInstructions.move_z_axis = 0 <;>
    by_cases ha : s.joggingAck = true <;>
      simp [jogFunction, hz, ha]

/-- Switch cases of `onUse` (the key codes handled by the `switch` in
`actions.ts`, in source order). -/
def handledKeyCodes : List Nat :=
  [86, 87, 92, 94, 96, 90, 89, 97, 91, 95, 93, 43, 98, 99, 88, 83, 84, 85, 42]

/-- Concrete evaluation of `updateFromString` on the probe line
`[PRB:0.000,0.000,-12.340:1]`: every field is overwritten, so the result does
not depend on the previous record. -/
lemma updateFromString_probe_line (rec : ZProbeRecord) :
    rec.updateFromString "[PRB:0.000,0.000,-12.340:1]".data =
      ⟨.num 0, .num 0, .num (-617 / 50), true⟩ := by
  have hc : captureColons "[PRB:0.000,0.000,-12.340:1]".data =
      some "0.000,0.000,-12.340".data := by decide
  have hd : lastColonDigit "[PRB:0.000,0.000,-12.340:1]".data = some '1' := by decide
  have hs : ("0.000,0.000,-12.340".data.splitOn ',') =
      ["0.000".data, "0.000".data, "-12.340".data] := by decide
  have h0 : jsNumber "0.000".data = .num 0 := by
    rw [jsNumber_of_parse_dec (by decide : jsParse "0.000".data = .dec false 0 0 3 0)]
    norm_num [decValue]
  have hz : jsNumber "-12.340".data = .num (-617 / 50) := by
    rw [jsNumber_of_parse_dec (by decide : jsParse "-12.340".data = .dec true 12 340 3 0)]
    norm_num [decValue]
  simp [ZProbeRecord.updateFromString,
    (by decide : ZProbeRecord.isValidString "[PRB:0.000,0.000,-12.340:1]".data = true),
    hc, hd, hs, jsNumberAt, h0, hz]

/-! ## Claim theorems -/

/-- Claim C2 (counterexample): for the motion intent `(5, 0, 0)` with
magnitude `d = 5`, the value `jogGantry` computes and passes on is
`d·60000/T = 2000` mm/min, but the F word rendered in the transmitted `$J=`
command is `1960 ≠ 2000` — the rendered feedrate is not exactly `d·60000/T`. -/
theorem rendered_feedrate_not_exact_cx :
    (5 : ℚ) * 5 = 5 * 5 + 0 * 0 + 0 * 0 ∧
    jogSpeedOf 5 = 2000 ∧
    jogGantry 5 0 0 5 = [Cmd.g21, Cmd.g91, Cmd.jogJ 5 0 0 1960, Cmd.g90] ∧
    (1960 : ℚ) ≠ 2000 := by
  refine ⟨by norm_num, ?_, ?_, by norm_num⟩
  · norm_num [jogSpeedOf, SMOOTHJOG_COMMANDS_INTERVAL]
  · norm_num [jogGantry, moveGantryJogToXYZ, jogSpeedOf, SMOOTHJOG_COMMANDS_INTERVAL]

/-- Claim C2 (amended): for every motion intent `(x, y, z)` with magnitude
`d` (`d·d = x² + y² + z²`, `d ≥ 0`), `jogGantry` computes the feedrate
`d × 60000 / T` exactly and passes it to `moveGantryJogToXYZ`, but the F word
rendered in the transmitted jog command is that value scaled by `0.98`, which
differs from `d × 60000 / T` whenever `d ≠ 0`. -/
theorem rendered_feedrate_scaled (x y z d : ℚ)
    (h1 : d * d = x * x + y * y + z * z) (h2 : 0 ≤ d) :
    jogSpeedOf d = d * 60000 / SMOOTHJOG_COMMANDS_INTERVAL ∧
    jogGantry x y z d =
      [Cmd.g21, Cmd.g91, Cmd.jogJ x y z (jogSpeedOf d * (98 / 100)), Cmd.g90] ∧
    (d ≠ 0 → jogSpeedOf d * (98 / 100) ≠ jogSpeedOf d) := by
  refine ⟨rfl, rfl, fun hd0 heq => hd0 ?_⟩
  rw [jogSpeedOf, SMOOTHJOG_COMMANDS_INTERVAL] at heq
  field_simp at heq
  linarith

/-- Witness for `rendered_feedrate_scaled` at `(x, y, z, d) = (3, 0, 4, 5)`. -/
theorem rendered_feedrate_scaled_witness :
    jogSpeedOf 5 = 5 * 60000 / SMOOTHJOG_COMMANDS_INTERVAL ∧
    jogGantry 3 0 4 5 =
      [Cmd.g21, Cmd.g91, Cmd.jogJ 3 0 4 (jogSpeedOf 5 * (98 / 100)), Cmd.g90] ∧
    ((5 : ℚ) ≠ 0 → jogSpeedOf 5 * (98 / 100) ≠ jogSpeedOf 5) :=
  rendered_feedrate_scaled 3 0 4 5 (by norm_num) (by norm_num)

/-- Claim C3 (code bug, evaluation at the failing input): pressing KP_6 sets
the per-tick X instruction to `jogstep × jogspeed = 10000` mm; the first tick
transmits that jog, whose computed feedrate is `4 000 000` mm/min (the square
of the jog-speed constant, rendered as `F3920000` after the 0.98 scaling) and
not the XY jog speed constant `S = 2000`; a second tick before any
acknowledgment transmits nothing and re-arms the timer at 75 ms. -/
theorem kp6_first_tick_feedrate_eval :
    ((onUse initActions 94).1).axisInstructions =
      ⟨SMOOTHJOG_JOGSTEP * SMOOTHJOG_JOGSPEED, 0, 0⟩ ∧
    SMOOTHJOG_JOGSTEP * SMOOTHJOG_JOGSPEED = 10000 ∧
    (jogFunction (onUse initActions 94).1).2 = some (10000, 0, 0) ∧
    (10000 : ℚ) * 10000 = 10000 * 10000 + 0 * 0 + 0 * 0 ∧
    jogSpeedOf 10000 = 4000000 ∧
    jogGantry 10000 0 0 10000 =
      [Cmd.g21, Cmd.g91, Cmd.jogJ 10000 0 0 3920000, Cmd.g90] ∧
    SMOOTHJOG_JOGSPEED = 2000 ∧
    (4000000 : ℚ) ≠ SMOOTHJOG_JOGSPEED ∧ (3920000 : ℚ) ≠ SMOOTHJOG_JOGSPEED ∧
    (jogFunction (jogFunction (onUse initActions 94).1).1).2 = none ∧
    ((jogFunction (jogFunction (onUse initActions 94).1).1).1).timerDelay = some 75 := by
  refine ⟨?_, ?_, ?_, by norm_num, ?_, ?_, ?_, ?_, ?_, ?_, ?_⟩ <;>
    norm_num [jogFunction, onUse, initActions, restartSmoothJog, jogGantry,
      moveGantryJogToXYZ, jogSpeedOf, SMOOTHJOG_JOGSTEP, SMOOTHJOG_JOGSPEED,
      SMOOTHJOG_COMMANDS_INTERVAL, DEFAULT_MOVE_DISTANCE, SINGLESTEP_MEDIUM_JOGDISTANCE]

/-- Claim C4 (counterexample): `stopSmoothJog` applied to a state with an
outstanding (unacknowledged) jog leaves `joggingAck` false — the
acknowledgment flag is not part of the state it clears. -/
theorem stop_smooth_jog_ack_cx :
    ((stopSmoothJog { initActions with joggingAck := false }).1).joggingAck = false ∧
    ((stopSmoothJog { initActions with joggingAck := false }).1).smoothJogging = false ∧
    ((stopSmoothJog { initActions with joggingAck := false }).1).timerDelay = none ∧
    (stopSmoothJog { initActions with joggingAck := false }).2 = [0x85] :=
  ⟨rfl, rfl, rfl, rfl⟩

/-- Claim C4 (amended): `stopSmoothJog` emits the jog-cancel byte `0x85`
immediately and out-of-band (directly on the socket, regardless of the ack
state), clears the jogging flag and cancels the timer, but leaves
`joggingAck` exactly as it was. -/
theorem stop_smooth_jog_behavior (s : ActionsState) :
    stopSmoothJog s = ({ s with smoothJogging := false, timerDelay := none }, [0x85]) ∧
    ((stopSmoothJog s).1).joggingAck = s.joggingAck :=
  ⟨rfl, rfl⟩

/-- Claim C5: on the probe report `[PRB:0.000,0.000,-12.340:1]` with plate
thickness `1.56`, the Grbl read handler (whatever the previous record was)
emits exactly one offset-setting command, whose Z value is
`-12.340 − 1.56 = -13.9`, followed by exactly one retract move; a line that
is not a probe report emits nothing, so the sequence runs exactly once per
successful probe report. -/
theorem probe_success_offset_retract (rec : ZProbeRecord) :
    grblHandleRead "1.56".data rec "[PRB:0.000,0.000,-12.340:1]".data =
      (⟨.num 0, .num 0, .num (-617 / 50), true⟩,
       [Cmd.g91, Cmd.setZOffset (.num (-139 / 10)), Cmd.g0Z RETRACTION_DISTANCE, Cmd.g90]) ∧
    JsNum.num (-139 / 10) = JsNum.sub (.num (-617 / 50)) (jsNumber "1.56".data) ∧
    List.countP (fun c => c.isSetZOffset)
      [Cmd.g91, Cmd.setZOffset (.num (-139 / 10)), Cmd.g0Z RETRACTION_DISTANCE, Cmd.g90] = 1 ∧
    List.countP (fun c => c.isG0Z)
      [Cmd.g91, Cmd.setZOffset (.num (-139 / 10)), Cmd.g0Z RETRACTION_DISTANCE, Cmd.g90] = 1 ∧
    grblHandleRead "1.56".data rec "ok".data = (rec, []) := by
  have ht : jsNumber "1.56".data = .num (39 / 25) := by
    rw [jsNumber_of_parse_dec (by decide : jsParse "1.56".data = .dec false 1 56 2 0)]
    norm_num [decValue]
  have hsub : JsNum.sub (.num (-617 / 50)) (.num (39 / 25)) = .num (-139 / 10) := by
    simp only [JsNum.sub, JsNum.num.injEq]
    norm_num
  refine ⟨?_, by rw [ht, hsub], by decide, by decide, ?_⟩
  · simp only [grblHandleRead]
    rw [updateFromString_probe_line]
    simp [(by decide : ZProbeRecord.isValidString "[PRB:0.000,0.000,-12.340:1]".data = true),
      ht, hsub]
  · simp [grblHandleRead,
      (by decide : ZProbeRecord.isValidString "ok".data = false)]

/-- Claim C7 (counterexample): immediately after construction — before any
motion intent at all has been received — the jog timer is already armed (at
150 ms) while the standing instructions are the zero vector; and a tick taken
while an acknowledgment is pending re-arms the timer at 75 ms, so the period
is not fixed at 150 ms. -/
theorem jog_timer_before_intent_cx :
    initActions.timerDelay = some SMOOTHJOG_COMMANDS_INTERVAL ∧
    initActions.axisInstructions = ⟨0, 0, 0⟩ ∧
    initActions.smoothJogging = true ∧
    ((jogFunction { initActions with joggingAck := false }).1).timerDelay = some 75 := by
  refine ⟨rfl, rfl, rfl, ?_⟩
  norm_num [jogFunction, initActions, restartSmoothJog, SMOOTHJOG_COMMANDS_INTERVAL,
    DEFAULT_MOVE_DISTANCE, SINGLESTEP_MEDIUM_JOGDISTANCE]

/-- Claim C7 (amended): the scheduler's timer is armed at construction and
re-armed (at the full 150 ms interval) by every key event, regardless of the
motion intent; each tick re-arms it at 150 ms, or at half that (75 ms) while
an acknowledgment is pending; only `stopSmoothJog` stops the timer.  Whether
the intent is non-zero governs only whether a tick transmits, not whether the
timer runs. -/
theorem jog_timer_lifecycle :
    initActions.smoothJogging = true ∧
    initActions.timerDelay = some SMOOTHJOG_COMMANDS_INTERVAL ∧
    initActions.axisInstructions = ⟨0, 0, 0⟩ ∧
    (∀ (s : ActionsState) (k : Nat),
      ((onUse s k).1).timerDelay = some SMOOTHJOG_COMMANDS_INTERVAL ∧
      ((onUse s k).1).smoothJogging = true) ∧
    (∀ s : ActionsState,
      ((jogFunction s).1).timerDelay =
        some (SMOOTHJOG_COMMANDS_INTERVAL * (if s.joggingAck then 1 else 1 / 2))) ∧
    (∀ s : ActionsState,
      ((stopSmoothJog s).1).timerDelay = none ∧
      ((stopSmoothJog s).1).smoothJogging = false) ∧
    SMOOTHJOG_COMMANDS_INTERVAL * (1 / 2) = 75 := by
  refine ⟨rfl, rfl, rfl, fun s k => ⟨rfl, rfl⟩, jogFunction_timerDelay,
    fun s => ⟨rfl, rfl⟩, ?_⟩
  norm_num [SMOOTHJOG_COMMANDS_INTERVAL]

/-- Claim C9 (counterexample): processing the unknown key code `0xFF = 255`
dispatches no command, but it overwrites the stored previous key code: from a
state remembering key `0x5E = 94`, the stored key becomes `255`. -/
theorem unknown_key_prevkey_cx :
    (onUse { initActions with previousKeyCode := some 94 } 255).2 = [] ∧
    ((onUse { initActions with previousKeyCode := some 94 } 255).1).previousKeyCode =
      some 255 ∧
    some 255 ≠ some 94 :=
  ⟨rfl, rfl, by decide⟩

/-- Claim C9 (amended): a keyboard event with the unknown key code `0xFF`
dispatches no command and zeroes the standing motion intent, but — since the
"store previous key" step only excludes key code 0 — it overwrites
`previousKeyCode` with `0xFF`. -/
theorem unknown_key_ff_behavior (s : ActionsState) :
    (onUse s 255).2 = [] ∧
    (onUse s 255).1 =
      restartSmoothJog { s with previousKeyCode := some 255, axisInstructions := ⟨0, 0, 0⟩ } :=
  ⟨rfl, rfl⟩

/-- A digit is not a line terminator. -/
lemma charDot_of_digit {c : Char} (h : isDigitChar c = true) : charDot c = true := by
  have h1 : c ≠ '\n' := fun e => by subst e; exact absurd h (by decide)
  have h2 : c ≠ '\r' := fun e => by subst e; exact absurd h (by decide)
  have h3 : c ≠ Char.ofNat 0x2028 := fun e => by subst e; exact absurd h (by decide)
  have h4 : c ≠ Char.ofNat 0x2029 := fun e => by subst e; exact absurd h (by decide)
  simp [charDot, h1, h2, h3, h4]

lemma digit_ne_colon {c : Char} (h : isDigitChar c = true) : c ≠ ':' :=
  fun e => by subst e; exact absurd h (by decide)

lemma takeWhile_eq_self_of_all {l : List Char} (h : l.all charDot = true) :
    l.takeWhile charDot = l := by
  induction l with
  | nil => rfl
  | cons c t ih =>
    simp only [List.all_cons, Bool.and_eq_true] at h
    simp [List.takeWhile, h.1, ih h.2]

lemma beforeLastColon_append (mid : List Char) (d : Char) (hd : d ≠ ':') :
    beforeLastColon (mid ++ [':', d, ']']) = some mid := by
  induction mid with
  | nil => simp [beforeLastColon, hd]
  | cons c mid ih => simp [beforeLastColon, ih]

/-- On a line of the valid probe shape, the `/:(.*):/` capture is exactly the
text between `"[PRB:"` and the trailing `":<digit>]"`. -/
lemma captureColons_probe (mid : List Char) (d : Char) (hd : isDigitChar d = true)
    (hmid : mid.all charDot = true) :
    captureColons ('[' :: 'P' :: 'R' :: 'B' :: ':' :: (mid ++ [':', d, ']'])) = some mid := by
  have hall : ((mid ++ [':', d, ']']).takeWhile charDot) = mid ++ [':', d, ']'] := by
    refine takeWhile_eq_self_of_all ?_
    simp [List.all_append, hmid, charDot_of_digit hd,
      (by decide : charDot ':' = true), (by decide : charDot ']' = true)]
  simp [captureColons, hall, beforeLastColon_append mid d (digit_ne_colon hd)]

/-- The last `':'<digit>` pair of a line ending in `":<digit>]"` is that
trailing pair. -/
lemma lastColonDigit_append (l : List Char) (d : Char) (hd : isDigitChar d = true) :
    lastColonDigit (l ++ [':', d, ']']) = some d := by
  induction l with
  | nil =>
    have h2 : lastColonDigit [d, ']'] = none := by
      simp [lastColonDigit, (by decide : isDigitChar ']' = false)]
    simp [lastColonDigit, h2, hd, (by decide : isDigitChar ']' = false)]
  | cons c l ih => simp [lastColonDigit, ih]

/-- A line accepted by `isValidString` decomposes as
`"[PRB:" ++ mid ++ ":" ++ [d] ++ "]"`. -/
lemma valid_decomp (line : List Char) (h : ZProbeRecord.isValidString line = true) :
    ∃ mid d, line = '[' :: 'P' :: 'R' :: 'B' :: ':' :: (mid ++ [':', d, ']']) ∧
      isDigitChar d = true ∧ mid.all charDot = true := by
  unfold ZProbeRecord.isValidString at h
  split at h
  case h_2 => exact absurd h (by simp)
  case h_1 _ rest =>
    split at h
    case h_2 => exact absurd h (by simp)
    case h_1 d midRev heq =>
      simp only [Bool.and_eq_true] at h
      refine ⟨midRev.reverse, d, ?_, h.1, by simpa using h.2⟩
      have hrest : rest = midRev.reverse ++ [':', d, ']'] := by
        have h3 := congrArg List.reverse heq
        simpa using h3
      rw [hrest]

/-- On every accepted line both regex captures succeed. -/
lemma update_valid_parts (line : List Char) (h : ZProbeRecord.isValidString line = true) :
    ∃ mid d, captureColons line = some mid ∧ lastColonDigit line = some d := by
  obtain ⟨mid, d, rfl, hd, hmid⟩ := valid_decomp line h
  exact ⟨mid, d, captureColons_probe mid d hd hmid,
    lastColonDigit_append (['[', 'P', 'R', 'B', ':'] ++ mid) d hd⟩

/-- Claim C6 (counterexample): the line `[PRB:nope:1]` is accepted by the
probe grammar, yet its coordinate field does not parse as a number — the
update still happens and writes `NaN` into `x`, `y` and `z`, so the record is
changed rather than left untouched. -/
theorem update_accepts_unparsable_cx :
    ZProbeRecord.isValidString "[PRB:nope:1]".data = true ∧
    ZProbeRecord.init.updateFromString "[PRB:nope:1]".data = ⟨.nan, .nan, .nan, true⟩ ∧
    ZProbeRecord.init.updateFromString "[PRB:nope:1]".data ≠ ZProbeRecord.init := by
  have he : ZProbeRecord.init.updateFromString "[PRB:nope:1]".data =
      ⟨.nan, .nan, .nan, true⟩ := by
    have hc : captureColons "[PRB:nope:1]".data = some "nope".data := by decide
    have hd : lastColonDigit "[PRB:nope:1]".data = some '1' := by decide
    have hs : ("nope".data.splitOn ',') = ["nope".data] := by decide
    have hn : jsNumber "nope".data = .nan := jsNumber_of_parse_nan (by decide)
    simp [ZProbeRecord.updateFromString,
      (by decide : ZProbeRecord.isValidString "[PRB:nope:1]".data = true),
      hc, hd, hs, jsNumberAt, hn, List.get?]
  refine ⟨by decide, he, ?_⟩
  rw [he]
  simp [ZProbeRecord.init]

/-- Claim C6 (amended): `updateFromString` never throws; on a line that does
not match the probe grammar it leaves the record entirely unchanged; and on
every accepted line it writes all four fields together — the result does not
depend on the previous record — though coordinates that fail to parse are
written as `NaN` rather than preventing the update. -/
theorem update_from_string_all_or_nothing (rec : ZProbeRecord) (line : List Char) :
    (ZProbeRecord.isValidString line = false → rec.updateFromString line = rec) ∧
    (ZProbeRecord.isValidString line = true →
      ∀ rec' : ZProbeRecord, rec.updateFromString line = rec'.updateFromString line) := by
  constructor
  · intro h
    simp [ZProbeRecord.updateFromString, h]
  · intro h rec'
    obtain ⟨mid, d, hc, hd⟩ := update_valid_parts line h
    simp [ZProbeRecord.updateFromString, h, hc, hd]

/-- Witness for `update_from_string_all_or_nothing`: the invalid line
`garbage` leaves the initial record unchanged, and on the accepted line
`[PRB:7:0]` two different starting records end up identical. -/
theorem update_from_string_all_or_nothing_witness :
    ZProbeRecord.init.updateFromString "garbage".data = ZProbeRecord.init ∧
    ZProbeRecord.init.updateFromString "[PRB:7:0]".data =
      (⟨.num 1, .num 2, .num 3, true⟩ : ZProbeRecord).updateFromString "[PRB:7:0]".data :=
  ⟨(update_from_string_all_or_nothing ZProbeRecord.init "garbage".data).1 (by decide),
   (update_from_string_all_or_nothing ZProbeRecord.init "[PRB:7:0]".data).2 (by decide) _⟩

/-- Every step of the connector keeps all live retry intervals at the fixed
2000 ms period. -/
lemma stepC_timer_period (c : ConnectorState) (e : CEvent)
    (h : ∀ t ∈ c.liveTimers, t.periodMs = SERIAL_RETRY_MS) :
    ∀ t ∈ (stepC c e).liveTimers, t.periodMs = SERIAL_RETRY_MS := by
  intro t ht
  cases e with
  | connectEv =>
    simp only [stepC, openSerial, List.mem_cons] at ht
    rcases ht with rfl | ht
    · rfl
    · exact h t ht
  | spOpen =>
    simp only [stepC, onSerialportOpen] at ht
    rcases hs : c.serialTimer with _ | tid <;> rw [hs] at ht
    · exact h t ht
    · exact h t (List.mem_of_mem_filter ht)
  | spClose =>
    simp only [stepC, onSerialportClose, openSerial, List.mem_cons] at ht
    rcases ht with rfl | ht
    · rfl
    · exact h t ht
  | spError =>
    simp only [stepC, onSerialportError, openSerial, List.mem_cons] at ht
    rcases ht with rfl | ht
    · rfl
    · exact h t ht

lemma runC_timer_period (es : List CEvent) (c : ConnectorState)
    (h : ∀ t ∈ c.liveTimers, t.periodMs = SERIAL_RETRY_MS) :
    ∀ t ∈ (runC c es).liveTimers, t.periodMs = SERIAL_RETRY_MS := by
  induction es generalizing c with
  | nil => exact h
  | cons e es ih => exact ih (stepC c e) (stepC_timer_period c e h)

/-- Claim C10 (counterexample): after `connect` starts the first open-retry
interval and a `serialport:error` response triggers a renewed `openSerial`
call, two open-retry interval timers are live at the same time — the renewed
call duplicates rather than supersedes the pending timer. -/
theorem serial_retry_duplicate_cx :
    (runC initConnector [CEvent.connectEv, CEvent.spError]).liveTimers =
      [⟨1, SERIAL_RETRY_MS⟩, ⟨0, SERIAL_RETRY_MS⟩] ∧
    (runC initConnector [CEvent.connectEv, CEvent.spError]).liveTimers.length = 2 ∧
    (runC initConnector [CEvent.connectEv, CEvent.spError]).serialTimer = some 1 ∧
    (runC initConnector [CEvent.connectEv, CEvent.spError]).serialConnected = false :=
  ⟨rfl, rfl, rfl, rfl⟩

/-- Claim C10 (amended): the open request is re-sent by interval timers with
the fixed 2000 ms period; a `serialport:open` confirmation sets
`serialConnected` and cancels the timer stored in `this.serial`; but a
renewed `openSerial` call (from `serialport:close` or `serialport:error`)
starts an additional interval without cancelling the pending one — the old
timer stays live (and only the most recently stored one can be cancelled
later), so two open-retry timers can run concurrently. -/
theorem serial_retry_lifecycle :
    (∀ (c : ConnectorState) (es : List CEvent),
      (∀ t ∈ c.liveTimers, t.periodMs = SERIAL_RETRY_MS) →
      ∀ t ∈ (runC c es).liveTimers, t.periodMs = SERIAL_RETRY_MS) ∧
    (∀ c : ConnectorState, (stepC c CEvent.spOpen).serialConnected = true) ∧
    (∀ (c : ConnectorState) (tid : Nat), c.serialTimer = some tid →
      (stepC c CEvent.spOpen).liveTimers = c.liveTimers.filter (fun r => r.id ≠ tid)) ∧
    (∀ c : ConnectorState,
      (stepC c CEvent.spError).liveTimers.length = c.liveTimers.length + 1 ∧
      c.liveTimers ⊆ (stepC c CEvent.spError).liveTimers ∧
      (stepC c CEvent.spError).serialTimer = some c.nextId) := by
  refine ⟨fun c es h => runC_timer_period es c h, fun c => rfl, ?_, ?_⟩
  · intro c tid h
    simp [stepC, onSerialportOpen, h]
  · intro c
    refine ⟨rfl, ?_, rfl⟩
    intro t ht
    simp only [stepC, onSerialportError, openSerial, List.mem_cons]
    exact Or.inr ht

/-- Witness for `serial_retry_lifecycle`: the period invariant instantiated
on the trace `[connect, serialport:error]` from the initial state, and the
cancellation equation instantiated on the state right after the first
`openSerial` call. -/
theorem serial_retry_lifecycle_witness :
    (∀ t ∈ (runC initConnector [CEvent.connectEv, CEvent.spError]).liveTimers,
      t.periodMs = SERIAL_RETRY_MS) ∧
    (stepC (openSerial initConnector) CEvent.spOpen).liveTimers =
      (openSerial initConnector).liveTimers.filter (fun r => r.id ≠ 0) :=
  ⟨serial_retry_lifecycle.1 initConnector [CEvent.connectEv, CEvent.spError]
      (by simp [initConnector]),
   serial_retry_lifecycle.2.2.1 (openSerial initConnector) 0 rfl⟩

/-- A tick from a zero standing intent leaves the ack flag as it was. -/
lemma jogFunction_ack_of_zero (s : ActionsState)
    (hz : s.axisInstructions.move_x_axis = 0 ∧ s.axisInstructions.move_y_axis = 0 ∧
      s.axisInstructions.move_z_axis = 0) :
    ((jogFunction s).1).joggingAck = s.joggingAck := by
  simp [jogFunction, hz]

/-- A step that transmits a jog clears the ack flag. -/
lemma stepA_transmit_ack (s : ActionsState) (e : AEvent)
    (h : ((stepA s e).2.jog).isSome = true) : ((stepA s e).1).joggingAck = false := by
  cases e with
  | key k => simp [stepA] at h
  | read l => simp [stepA] at h
  | tick => exact jogFunction_transmit_ack s (by simpa [stepA] using h)
  | stop => simp [stepA] at h

/-- No event other than an acknowledging `serialport:read` line restores a
cleared ack flag. -/
lemma stepA_ack_false_preserved (s : ActionsState) (e : AEvent) (h : s.joggingAck = false)
    (hne : ∀ l, e = AEvent.read l → ackLine l = false) :
    ((stepA s e).1).joggingAck = false := by
  cases e with
  | key k => simpa [stepA, onUse_joggingAck] using h
  | read l =>
    have hl := hne l rfl
    simp [stepA, actionsOnSerialRead, h, hl]
  | tick => exact (jogFunction_ack_false s h).2
  | stop => simpa [stepA, stopSmoothJog] using h

/-- Starting from a state with the ack flag cleared, a later step can
transmit a jog only if an acknowledging `serialport:read` line occurred in
between. -/
lemma no_transmit_while_ack_false (es : List AEvent) :
    ∀ (s : ActionsState) (e2 : AEvent), s.joggingAck = false →
      ((stepA (runA s es) e2).2.jog).isSome = true →
      ∃ esl l esr, es = esl ++ AEvent.read l :: esr ∧ ackLine l = true := by
  induction es with
  | nil =>
    intro s e2 h htr
    exfalso
    have hn : (stepA s e2).2.jog = none := by
      cases e2 with
      | key k => rfl
      | read l => rfl
      | tick => exact (jogFunction_ack_false s h).1
      | stop => rfl
    rw [runA] at htr
    rw [hn] at htr
    simp at htr
  | cons e es ih =>
    intro s e2 h htr
    by_cases hack : ∃ l, e = AEvent.read l ∧ ackLine l = true
    · obtain ⟨l, rfl, hl⟩ := hack
      exact ⟨[], l, es, rfl, hl⟩
    · push_neg at hack
      have h' : ((stepA s e).1).joggingAck = false :=
        stepA_ack_false_preserved s e h (fun l hl => by simpa using hack l hl)
      have htr' : ((stepA (runA (stepA s e).1 es) e2).2.jog).isSome = true := by
        simpa [runA] using htr
      obtain ⟨esl, l, esr, heq, hl⟩ := ih (stepA s e).1 e2 h' htr'
      exact ⟨e :: esl, l, esr, by simp [heq], hl⟩

/-- Claim C1: the single-outstanding-jog protocol.  Step-locally, at every
state: a jog is transmitted exactly by a timer tick with the ack flag set and
a non-zero standing intent; a transmitting step clears the flag, and the flag
is cleared only by transmitting; while the flag is cleared nothing is
transmitted; and the flag is restored only by a `serialport:read` line
starting with `ok` or `error:15`.  Consequently, along any event trace, two
jog transmissions are always separated by such an acknowledging line. -/
theorem jog_ack_single_outstanding :
    (∀ (s : ActionsState) (e : AEvent),
      (((stepA s e).2.jog).isSome = true ↔
        (e = AEvent.tick ∧ s.joggingAck = true ∧
          ¬(s.axisInstructions.move_x_axis = 0 ∧ s.axisInstructions.move_y_axis = 0 ∧
            s.axisInstructions.move_z_axis = 0))) ∧
      (((stepA s e).2.jog).isSome = true → ((stepA s e).1).joggingAck = false) ∧
      (s.joggingAck = false → (stepA s e).2.jog = none) ∧
      (s.joggingAck = true → ((stepA s e).1).joggingAck = false →
        ((stepA s e).2.jog).isSome = true) ∧
      (s.joggingAck = false → ((stepA s e).1).joggingAck = true →
        ∃ l, e = AEvent.read l ∧ ackLine l = true)) ∧
    (∀ (s : ActionsState) (es1 : List AEvent) (e1 : AEvent) (es2 : List AEvent) (e2 : AEvent),
      ((stepA (runA s es1) e1).2.jog).isSome = true →
      ((stepA (runA ((stepA (runA s es1) e1).1) es2) e2).2.jog).isSome = true →
      ∃ esl l esr, es2 = esl ++ AEvent.read l :: esr ∧ ackLine l = true) := by
  constructor
  · intro s e
    refine ⟨?_, fun h => stepA_transmit_ack s e h, ?_, ?_, ?_⟩
    · cases e with
      | key k => simp [stepA]
      | read l => simp [stepA]
      | tick => simp [stepA, jogFunction_isSome_iff]
      | stop => simp [stepA]
    · intro h
      cases e with
      | key k => rfl
      | read l => rfl
      | tick => exact (jogFunction_ack_false s h).1
      | stop => rfl
    · intro h1 h2
      cases e with
      | key k => simp [stepA, onUse_joggingAck, h1] at h2
      | read l => simp [stepA, actionsOnSerialRead, h1] at h2
      | tick =>
        by_cases hz : s.axisInstructions.move_x_axis = 0 ∧ s.axisInstructions.move_y_axis = 0 ∧
            s.axisInstructions.move_z_axis = 0
        · rw [show ((stepA s AEvent.tick).1) = (jogFunction s).1 from rfl,
            jogFunction_ack_of_zero s hz, h1] at h2
          simp at h2
        · simp [stepA, jogFunction_isSome_iff, h1, hz]
      | stop => simp [stepA, stopSmoothJog, h1] at h2
    · intro h1 h2
      cases e with
      | key k => simp [stepA, onUse_joggingAck, h1] at h2
      | read l =>
        by_cases hb : ackLine l = true
        · exact ⟨l, rfl, hb⟩
        · simp [stepA, actionsOnSerialRead, h1, hb] at h2
      | tick =>
        have hf := (jogFunction_ack_false s h1).2
        simp [stepA, hf] at h2
      | stop => simp [stepA, stopSmoothJog, h1] at h2
  · intro s es1 e1 es2 e2 h1 h2
    exact no_transmit_while_ack_false es2 _ e2 (stepA_transmit_ack _ e1 h1) h2

/-- Witness for `jog_ack_single_outstanding`: a tick with the ack flag
cleared transmits nothing, and on the concrete trace "transmit, read `ok`,
transmit" the separating acknowledgment is found. -/
theorem jog_ack_single_outstanding_witness :
    (stepA { initActions with joggingAck := false } AEvent.tick).2.jog = none ∧
    (∃ esl l esr, [AEvent.read ['o', 'k']] = esl ++ AEvent.read l :: esr ∧
      ackLine l = true) :=
  ⟨(jog_ack_single_outstanding.1 { initActions with joggingAck := false } AEvent.tick).2.2.1
      rfl,
   jog_ack_single_outstanding.2 { initActions with axisInstructions := ⟨1, 0, 0⟩ } []
     AEvent.tick [AEvent.read ['o', 'k']] AEvent.tick
     (by norm_num [stepA, runA, jogFunction, initActions, restartSmoothJog,
        SMOOTHJOG_COMMANDS_INTERVAL, DEFAULT_MOVE_DISTANCE, SINGLESTEP_MEDIUM_JOGDISTANCE])
     (by norm_num [stepA, runA, jogFunction, actionsOnSerialRead, ackLine, initActions,
        restartSmoothJog, SMOOTHJOG_COMMANDS_INTERVAL, DEFAULT_MOVE_DISTANCE,
        SINGLESTEP_MEDIUM_JOGDISTANCE, List.take])⟩

/-- Claim C8: the "no keys pressed" report (sentinel key code 0) — like any
key code outside the handled switch cases — dispatches no one-shot command,
changes no step size, and zeroes the standing motion intent; after it the
next tick transmits no jog while the timer stays armed.  Key 0 additionally
leaves the stored previous key unchanged. -/
theorem key_zero_clears_intent (s : ActionsState) :
    onUse s 0 = (restartSmoothJog { s with axisInstructions := ⟨0, 0, 0⟩ }, []) ∧
    (jogFunction (onUse s 0).1).2 = none ∧
    (((jogFunction (onUse s 0).1).1).timerDelay).isSome = true ∧
    (∀ k : Nat, k ∉ handledKeyCodes →
      (onUse s k).2 = [] ∧ ((onUse s k).1).axisInstructions = ⟨0, 0, 0⟩ ∧
      ((onUse s k).1).moveDistance = s.moveDistance) := by
  refine ⟨rfl, ?_, ?_, ?_⟩
  · simp [jogFunction, onUse, restartSmoothJog]
  · simp [jogFunction, onUse, restartSmoothJog]
  · intro k hk
    simp only [onUse]
    split <;>
      first
        | exact ⟨rfl, rfl, rfl⟩
        | (exfalso; apply hk; subst_vars; decide)

/-- Witness for `key_zero_clears_intent` at the initial state, with the
unhandled-key part instantiated at key code `0xFF = 255`. -/
theorem key_zero_clears_intent_witness :
    onUse initActions 0 =
      (restartSmoothJog { initActions with axisInstructions := ⟨0, 0, 0⟩ }, []) ∧
    (jogFunction (onUse initActions 0).1).2 = none ∧
    (((jogFunction (onUse initActions 0).1).1).timerDelay).isSome = true ∧
    ((onUse initActions 255).2 = [] ∧
      ((onUse initActions 255).1).axisInstructions = ⟨0, 0, 0⟩ ∧
      ((onUse initActions 255).1).moveDistance = initActions.moveDistance) :=
  ⟨(key_zero_clears_intent initActions).1,
   (key_zero_clears_intent initActions).2.1,
   (key_zero_clears_intent initActions).2.2.1,
   (key_zero_clears_intent initActions).2.2.2 255 (by decide)⟩

end Pendant
